import Mathlib

/-!
Shallow embedding of the nahcon contact-directory HTTP service
(src/src/server.ts, with the earlier revision src/unnamed/part_000 embedded
as the `legacy` definitions).  Database queries are modelled by explicit
association lists / lookup functions; a lookup that can fail at the store
level is modelled with an `Except Unit` result or a `LookupResult.err`
value.  Handlers become pure functions from the request parameters and the
database state to a response value.
-/

/-- Result of one `pool.execute` lookup against a category table:
the query may throw (`err`), return no rows (`notFound`), or return a
row carrying the label (`found`). -/
inductive LookupResult where
  | err : LookupResult
  | notFound : LookupResult
  | found : String → LookupResult
deriving DecidableEq

/-- The eight id→label tables consulted by `getLocationName`
(`location`, `mk_cat_info`, `md_cat_info`, `muas_cat_info`, `nrt_cat_info`,
`field_cat_info`, `medical_cat_info`, `service_cat_info`), each modelled as
a lookup function from the id to a `LookupResult`. -/
structure CatDb where
  location : Int → LookupResult
  mk_cat_info : Int → LookupResult
  md_cat_info : Int → LookupResult
  muas_cat_info : Int → LookupResult
  nrt_cat_info : Int → LookupResult
  field_cat_info : Int → LookupResult
  medical_cat_info : Int → LookupResult
  service_cat_info : Int → LookupResult

/-- One conditional block of `getLocationName` (server.ts lines 116-124 and
the analogous blocks): if the id is strictly positive, execute the lookup
(a thrown error aborts the whole `try`), return the label when a row is
found, otherwise fall through to the rest of the function (`next`). -/
def catStep (t : Int → LookupResult) (i : Int) (next : Except Unit String) :
    Except Unit String :=
  if i > 0 then
    match t i with
    | LookupResult.err => Except.error ()
    | LookupResult.found l => Except.ok l
    | LookupResult.notFound => next
  else next

/-- Body of the `try` block of `getLocationName` (server.ts lines 114-197):
the eight tables are consulted in the fixed order location, mk, md, muas,
nrt, field, medical, service; the fall-through result is `"Unknown"`. -/
def getLocationNameE (db : CatDb)
    (locationId mkCatId mdCatId muasCatId nrtCatId fieldCatId medicalCatId
      serviceCatId : Int) : Except Unit String :=
  catStep db.location locationId
    (catStep db.mk_cat_info mkCatId
      (catStep db.md_cat_info mdCatId
        (catStep db.muas_cat_info muasCatId
          (catStep db.nrt_cat_info nrtCatId
            (catStep db.field_cat_info fieldCatId
              (catStep db.medical_cat_info medicalCatId
                (catStep db.service_cat_info serviceCatId
                  (Except.ok "Unknown"))))))))

/-- `getLocationName` (server.ts lines 104-202): the `try` body above with
the surrounding `catch` that turns any thrown lookup error into the
sentinel `"Unknown"`. -/
def getLocationName (db : CatDb)
    (locationId mkCatId mdCatId muasCatId nrtCatId fieldCatId medicalCatId
      serviceCatId : Int) : String :=
  match getLocationNameE db locationId mkCatId mdCatId muasCatId nrtCatId
      fieldCatId medicalCatId serviceCatId with
  | Except.ok s => s
  | Except.error _ => "Unknown"

/-- `formatWhatsAppNumber` (server.ts lines 205-222) on the character list
of the input: strip non-digits; a leading `0` is replaced by `234`;
otherwise `234` is prepended unless already present. -/
def whatsappChars (phone : List Char) : List Char :=
  if phone = [] then []
  else if (phone.filter Char.isDigit).take 1 = ['0'] then
    ['2', '3', '4'] ++ (phone.filter Char.isDigit).drop 1
  else if (phone.filter Char.isDigit).take 3 ≠ ['2', '3', '4'] then
    ['2', '3', '4'] ++ phone.filter Char.isDigit
  else
    phone.filter Char.isDigit

/-- `formatWhatsAppNumber` (server.ts lines 205-222): JS strings are
modelled through their character lists; the JS falsiness test `!phone`
holds exactly for the empty string. -/
def formatWhatsAppNumber (phone : String) : String :=
  String.mk (whatsappChars phone.toList)

/-- Whitespace test used by the JS `trim` model. -/
def wsp (c : Char) : Bool :=
  c.isWhitespace

/-- JS `String.prototype.trim()`: strip whitespace from both ends. -/
def jsTrim (s : String) : String :=
  String.mk (((s.toList.dropWhile wsp).reverse.dropWhile wsp).reverse)

/-- Digit run at the head of a character list, as consumed by JS
`parseInt`. -/
def takeDigits (l : List Char) : List Char :=
  l.takeWhile Char.isDigit

/-- Numeric value of a digit run. -/
def digitsToNat (l : List Char) : Nat :=
  l.foldl (fun acc c => acc * 10 + (c.toNat - '0'.toNat)) 0

/-- JS `parseInt(s, 10)`: skip leading whitespace, read an optional sign
and then a maximal run of decimal digits; the result is `none` (NaN) when
no digit is read. -/
def parseIntJs (s : String) : Option Int :=
  match (jsTrim s).toList with
  | '-' :: rest =>
    let ds := takeDigits rest
    if ds = [] then none else some (-(digitsToNat ds : Int))
  | '+' :: rest =>
    let ds := takeDigits rest
    if ds = [] then none else some ((digitsToNat ds : Int))
  | l =>
    let ds := takeDigits l
    if ds = [] then none else some ((digitsToNat ds : Int))

/-- Effective `limit` of the fixed list-contacts handlers (server.ts line
233): absent or empty parameter (JS falsy) defaults to 50, otherwise
`Math.max(1, Math.min(1000, parseInt(limitParam, 10)))`; `none` models the
NaN that the subsequent `isNaN` check turns into a 400. -/
def effLimit (limitParam : Option String) : Option Int :=
  match limitParam with
  | none => some 50
  | some s =>
    if s = "" then some 50
    else (parseIntJs s).map (fun n => max 1 (min 1000 n))

/-- Effective `offset` of the fixed list-contacts handlers (server.ts line
234): absent or empty defaults to 0, otherwise
`Math.max(0, parseInt(offsetParam, 10))`; `none` models NaN. -/
def effOffset (offsetParam : Option String) : Option Int :=
  match offsetParam with
  | none => some 0
  | some s =>
    if s = "" then some 0
    else (parseIntJs s).map (fun n => max 0 n)

/-- The SQL LIMIT value produced by the legacy handler
(src/unnamed/part_000 lines 180 and 232): the destructuring default
`limit = '50'` applies only when the parameter is absent, and the bare
`parseInt(limit)` is pushed into the query parameters with no clamping and
no NaN check (`none` models a NaN forwarded to the driver). -/
def legacySqlLimit (limitParam : Option String) : Option Int :=
  parseIntJs (match limitParam with | none => "50" | some s => s)

/-- The SQL OFFSET value produced by the legacy handler
(src/unnamed/part_000 lines 180 and 232), likewise unclamped. -/
def legacySqlOffset (offsetParam : Option String) : Option Int :=
  parseIntJs (match offsetParam with | none => "0" | some s => s)

/-- Lower-cased character list of a string, for the case-insensitive
collation of SQL `LIKE`. -/
def lcChars (s : String) : List Char :=
  s.toList.map Char.toLower

/-- Does the needle occur at the head of the haystack? -/
def headMatch : List Char → List Char → Bool
  | _, [] => true
  | [], _ :: _ => false
  | h :: t, a :: b => h == a && headMatch t b

/-- Does the needle occur somewhere in the haystack? -/
def subMatch : List Char → List Char → Bool
  | [], needle => needle.isEmpty
  | h :: t, needle => headMatch (h :: t) needle || subMatch t needle

/-- SQL `col LIKE '%needle%'` under the default case-insensitive
collation: case-insensitive substring containment. -/
def likeContains (hay needle : String) : Bool :=
  subMatch (lcChars hay) (lcChars needle)

/-- SQL `LIKE` applied to a nullable column: `NULL LIKE p` is NULL, which
filters the row out. -/
def optLike (v : Option String) (needle : String) : Bool :=
  match v with
  | none => false
  | some s => likeContains s needle

/-- One row of the `phone_record` table (nullable columns are collapsed to
their JS-falsy defaults, exactly as the handlers do with `|| 0` and
`|| ''`). -/
structure PhoneRecord where
  record_id : Int
  rank : String
  f_name : String
  l_name : String
  phone : String
  phone1 : String
  phone2 : String
  location_id : Int
  mk_cat_id : Int
  md_cat_id : Int
  muas_cat_id : Int
  nrt_cat_id : Int
  field_cat_id : Int
  medical_cat_id : Int
  service_cat_id : Int
  province_id : Int
  state_id : Int
deriving DecidableEq

/-- One row of the SELECT of the list/by-id queries: a `phone_record` row
LEFT JOINed with `province_info` and `state_info` (the joined name columns
are NULL when no reference row matches). -/
structure JoinedRow where
  record_id : Int
  rank : String
  f_name : String
  l_name : String
  phone : String
  phone1 : String
  phone2 : String
  location_id : Int
  mk_cat_id : Int
  md_cat_id : Int
  muas_cat_id : Int
  nrt_cat_id : Int
  field_cat_id : Int
  medical_cat_id : Int
  service_cat_id : Int
  province : Option String
  state_name : Option String
deriving DecidableEq

/-- The `Contact` response interface (server.ts lines 91-101). -/
structure Contact where
  id : String
  name : String
  location : String
  phone : String
  whatsapp : String
  rank : String
  province : String
  state : String
  category : String
deriving DecidableEq

/-- The relational store: the `phone_record` table, the two reference
tables and the eight id→label category tables, each as a row list in the
store's natural order. -/
structure Db where
  phone_record : List PhoneRecord
  province_info : List (Int × String)
  state_info : List (Int × String)
  location : List (Int × String)
  mk_cat_info : List (Int × String)
  md_cat_info : List (Int × String)
  muas_cat_info : List (Int × String)
  nrt_cat_info : List (Int × String)
  field_cat_info : List (Int × String)
  medical_cat_info : List (Int × String)
  service_cat_info : List (Int × String)

/-- LEFT JOIN of one `phone_record` row with `province_info` and
`state_info` on their id columns. -/
def joinRow (db : Db) (pr : PhoneRecord) : JoinedRow :=
  { record_id := pr.record_id
    rank := pr.rank
    f_name := pr.f_name
    l_name := pr.l_name
    phone := pr.phone
    phone1 := pr.phone1
    phone2 := pr.phone2
    location_id := pr.location_id
    mk_cat_id := pr.mk_cat_id
    md_cat_id := pr.md_cat_id
    muas_cat_id := pr.muas_cat_id
    nrt_cat_id := pr.nrt_cat_id
    field_cat_id := pr.field_cat_id
    medical_cat_id := pr.medical_cat_id
    service_cat_id := pr.service_cat_id
    province := (db.province_info.find? (fun r => r.1 == pr.province_id)).map
      (fun r => r.2)
    state_name := (db.state_info.find? (fun r => r.1 == pr.state_id)).map
      (fun r => r.2) }

/-- `SELECT <label> FROM <table> WHERE <id_col> = ?` against an id→label
table, as an error-free `LookupResult` lookup. -/
def tableLookup (t : List (Int × String)) : Int → LookupResult :=
  fun i =>
    match t.find? (fun r => r.1 == i) with
    | some r => LookupResult.found r.2
    | none => LookupResult.notFound

/-- The eight category tables of a store, packaged for
`getLocationName`. -/
def catDbOf (db : Db) : CatDb :=
  { location := tableLookup db.location
    mk_cat_info := tableLookup db.mk_cat_info
    md_cat_info := tableLookup db.md_cat_info
    muas_cat_info := tableLookup db.muas_cat_info
    nrt_cat_info := tableLookup db.nrt_cat_info
    field_cat_info := tableLookup db.field_cat_info
    medical_cat_info := tableLookup db.medical_cat_info
    service_cat_info := tableLookup db.service_cat_info }

/-- JS `a || b` on strings: the empty string is falsy. -/
def jsOr (a b : String) : String :=
  if a = "" then b else a

/-- The row-to-contact transform shared by the three contact endpoints
(server.ts lines 334-361, 520-548, 642-667). -/
def assembleContact (catDb : CatDb) (row : JoinedRow) : Contact :=
  let locationName := getLocationName catDb row.location_id row.mk_cat_id
    row.md_cat_id row.muas_cat_id row.nrt_cat_id row.field_cat_id
    row.medical_cat_id row.service_cat_id
  let fullName := jsTrim (row.f_name ++ " " ++ row.l_name)
  let primaryPhone := jsOr row.phone (jsOr row.phone1 row.phone2)
  { id := toString row.record_id
    name := if fullName = "" then "Unknown" else fullName
    location := locationName
    phone := primaryPhone
    whatsapp := formatWhatsAppNumber primaryPhone
    rank := row.rank
    province := row.province.getD ""
    state := row.state_name.getD ""
    category := locationName }

/-- Query parameters of the list-contacts endpoints
(`ContactQueryParams`, server.ts lines 81-89); `none` is an absent
parameter. -/
structure ContactQueryParams where
  search : Option String := none
  location : Option String := none
  province : Option String := none
  state : Option String := none
  category : Option String := none
  limit : Option String := none
  offset : Option String := none

/-- The `param && param.trim()` guard of the fixed handlers: a filter is
active only when the parameter is present and non-empty after trimming,
and the value used in the SQL pattern is the trimmed string. -/
def activeParam (p : Option String) : Option String :=
  match p with
  | none => none
  | some s => if jsTrim s = "" then none else some (jsTrim s)

/-- The WHERE clause built by the fixed list-contacts handlers (server.ts
lines 277-299), evaluated on one joined row: search over the five name and
phone columns, province and state over the joined name columns, and the
location filter as equality with the id produced by the scalar subquery
`SELECT location_id FROM location WHERE location LIKE ? LIMIT 1` (no
matching location row makes the equality NULL, satisfied by no row). -/
def rowMatches (db : Db) (params : ContactQueryParams) (r : JoinedRow) :
    Bool :=
  (match activeParam params.search with
   | none => true
   | some t =>
     likeContains r.f_name t || likeContains r.l_name t ||
       likeContains r.phone t || likeContains r.phone1 t ||
       likeContains r.phone2 t) &&
  (match activeParam params.province with
   | none => true
   | some t => optLike r.province t) &&
  (match activeParam params.state with
   | none => true
   | some t => optLike r.state_name t) &&
  (match activeParam params.location with
   | none => true
   | some t =>
     match db.location.find? (fun row => likeContains row.2 t) with
     | none => false
     | some lr => r.location_id == lr.1)

/-- All joined rows satisfying the filter predicate, in store order: the
result set of the list query before LIMIT/OFFSET, and the row set counted
by the COUNT query (both queries append identical filter clauses). -/
def matchingRows (db : Db) (params : ContactQueryParams) : List JoinedRow :=
  (db.phone_record.map (joinRow db)).filter (rowMatches db params)

/-- `LIMIT limit OFFSET offset` over the filtered result set. -/
def pageRows (db : Db) (params : ContactQueryParams) (limit offset : Int) :
    List JoinedRow :=
  ((matchingRows db params).drop offset.toNat).take limit.toNat

/-- The `pagination` object of the list-contacts responses. -/
structure Pagination where
  total : Int
  limit : Int
  offset : Int
  hasMore : Bool
deriving DecidableEq

/-- Outcome of a list-contacts request: 400 for NaN limit/offset, or the
200 body `{success: true, data, pagination}`. -/
inductive ContactsResponse where
  | badRequest : ContactsResponse
  | ok : List Contact → Pagination → ContactsResponse
deriving DecidableEq

/-- Query-and-respond phase shared verbatim by the two list-contacts
routes (server.ts lines 247-408 and 439-594), after limit and offset have
been validated: run the filtered query with LIMIT/OFFSET, short-circuit an
empty page with `total: 0, hasMore: false`, otherwise assemble the
contacts, run the COUNT query with the same filters, and report
`hasMore = offset + contacts.length < total`. -/
def contactsBody (db : Db) (params : ContactQueryParams)
    (limit offset : Int) : ContactsResponse :=
  if (pageRows db params limit offset).isEmpty then
    ContactsResponse.ok []
      { total := 0, limit := limit, offset := offset, hasMore := false }
  else
    ContactsResponse.ok
      ((pageRows db params limit offset).map (assembleContact (catDbOf db)))
      { total := ((matchingRows db params).length : Int), limit := limit,
        offset := offset,
        hasMore := decide (offset +
          ((((pageRows db params limit offset).map
            (assembleContact (catDbOf db))).length : Int)) <
          ((matchingRows db params).length : Int)) }

/-- GET /api/contacts (server.ts lines 225-418): clamp limit and offset,
return 400 when either is NaN, and otherwise run the shared
query-and-respond phase. -/
def contactsHandler (db : Db) (params : ContactQueryParams) :
    ContactsResponse :=
  match effLimit params.limit, effOffset params.offset with
  | some limit, some offset => contactsBody db params limit offset
  | _, _ => ContactsResponse.badRequest

/-- GET /api/contacts-alt (server.ts lines 421-604), transcribed on its
own: the alternative implementation issues the SQL through `pool.query`
instead of `pool.execute`; with both calls returning the rows of the same
store, its clamping, filter building, empty-page short-circuit, contact
assembly, count query and pagination fields are those of `/api/contacts`
line for line. -/
def contactsAltHandler (db : Db) (params : ContactQueryParams) :
    ContactsResponse :=
  match effLimit params.limit, effOffset params.offset with
  | some limit, some offset =>
    let rows := pageRows db params limit offset
    if rows.isEmpty then
      ContactsResponse.ok []
        { total := 0, limit := limit, offset := offset, hasMore := false }
    else
      let contacts := rows.map (assembleContact (catDbOf db))
      let total : Int := ((matchingRows db params).length : Int)
      ContactsResponse.ok contacts
        { total := total, limit := limit, offset := offset,
          hasMore := decide (offset + (contacts.length : Int) < total) }
  | _, _ => ContactsResponse.badRequest

/-- The `if (param)` guard of the legacy handler (src/unnamed/part_000
lines 212-228): a filter is active when the parameter is present and
non-empty (JS truthiness), with no trimming. -/
def legacyActiveParam (p : Option String) : Option String :=
  match p with
  | none => none
  | some s => if s = "" then none else some s

/-- The WHERE clause built by the legacy list-contacts handler
(src/unnamed/part_000 lines 209-228): search, province and state only —
the `location` parameter is destructured but never used, so no location
clause exists. -/
def legacyRowMatches (params : ContactQueryParams) (r : JoinedRow) : Bool :=
  (match legacyActiveParam params.search with
   | none => true
   | some t =>
     likeContains r.f_name t || likeContains r.l_name t ||
       likeContains r.phone t || likeContains r.phone1 t ||
       likeContains r.phone2 t) &&
  (match legacyActiveParam params.province with
   | none => true
   | some t => optLike r.province t) &&
  (match legacyActiveParam params.state with
   | none => true
   | some t => optLike r.state_name t)

/-- Joined rows satisfying the legacy filter predicate, before
pagination. -/
def legacyMatchingRows (db : Db) (params : ContactQueryParams) :
    List JoinedRow :=
  (db.phone_record.map (joinRow db)).filter (legacyRowMatches params)

/-- Outcome of a get-contact-by-id request: 400 for a non-numeric id (the
fixed handler only), 404 when no row matches, or the assembled contact. -/
inductive ByIdResponse where
  | badRequest : ByIdResponse
  | notFound : ByIdResponse
  | ok : Contact → ByIdResponse
deriving DecidableEq

/-- GET /api/contacts/:id (server.ts lines 607-681): `parseInt` the id and
return 400 on NaN; query `WHERE pr.record_id = ?`; 404 on an empty result;
otherwise assemble the first row. -/
def contactByIdHandler (db : Db) (idParam : String) : ByIdResponse :=
  match parseIntJs idParam with
  | none => ByIdResponse.badRequest
  | some contactId =>
    match (db.phone_record.map (joinRow db)).filter
        (fun r => r.record_id == contactId) with
    | [] => ByIdResponse.notFound
    | row :: _ => ByIdResponse.ok (assembleContact (catDbOf db) row)

/-- GET /api/contacts/:id of the legacy revision (src/unnamed/part_000
lines 323-386): no integer validation — the raw path string is bound into
`WHERE pr.record_id = ?`, so the matched rows are whatever the store's
string-to-number coercion yields; that coercion is outside the handler and
is modelled by the oracle `exec`. -/
def legacyContactByIdHandler (catDb : CatDb) (exec : String → List JoinedRow)
    (idParam : String) : ByIdResponse :=
  match exec idParam with
  | [] => ByIdResponse.notFound
  | row :: _ => ByIdResponse.ok (assembleContact catDb row)

/-- The accumulation step of the locations endpoints: for each value of
one table's label column, push it when it is truthy (non-empty) and not
yet present (`!locations.includes(...)`). -/
def collectLabels (acc : List String) (rows : List String) : List String :=
  rows.foldl (fun a v => if v ≠ "" ∧ v ∉ a then a ++ [v] else a) acc

/-- Lexicographic strict comparison of character lists by code point, the
order JS `Array.prototype.sort()` uses on its string elements. -/
def ltChars : List Char → List Char → Bool
  | [], [] => false
  | [], _ :: _ => true
  | _ :: _, [] => false
  | a :: as, b :: bs => if a == b then ltChars as bs else a.toNat < b.toNat

/-- Non-strict string comparison derived from `ltChars`. -/
def strLe (a b : String) : Bool :=
  !(ltChars b.toList a.toList)

/-- Insertion step of JS `Array.prototype.sort()` on strings (code-unit
order). -/
def insertSorted (x : String) : List String → List String
  | [] => [x]
  | y :: t => if strLe x y then x :: y :: t else y :: insertSorted x t

/-- JS `locations.sort()` on strings. -/
def sortStr (l : List String) : List String :=
  l.foldr insertSorted []

/-- GET /api/locations (server.ts lines 684-727): iterate the eight label
tables in order; each read is wrapped in its own try/catch, so a failing
table (`Except.error`) is logged and skipped while the accumulation
continues; the response is always the sorted accumulated list. Each table
read is modelled by its result: the label column values, or an error. -/
def locationsHandler (tables : List (Except Unit (List String))) :
    List String :=
  sortStr (tables.foldl
    (fun acc t =>
      match t with
      | Except.ok rows => collectLabels acc rows
      | Except.error _ => acc)
    [])

/-- GET /api/locations of the legacy revision (src/unnamed/part_000 lines
389-428): the table reads have no per-table try/catch, so the first
failing read throws out of the loop into the outer catch and the whole
request fails with 500 (`Except.error`). -/
def legacyLocationsHandler (tables : List (Except Unit (List String))) :
    Except Unit (List String) :=
  (tables.foldlM
    (fun (acc : List String) (t : Except Unit (List String)) =>
      match t with
      | Except.ok rows => Except.ok (collectLabels acc rows)
      | Except.error e => Except.error e)
    ([] : List String)).map sortStr

/-! Concrete stores used as witnesses and counterexamples. -/

/-- A record carrying no filterable data and no category keys. -/
def prOne : PhoneRecord :=
  { record_id := 1, rank := "", f_name := "", l_name := "", phone := "",
    phone1 := "", phone2 := "", location_id := 0, mk_cat_id := 0,
    md_cat_id := 0, muas_cat_id := 0, nrt_cat_id := 0, field_cat_id := 0,
    medical_cat_id := 0, service_cat_id := 0, province_id := 0,
    state_id := 0 }

/-- A store holding exactly the record `prOne` and empty reference
tables. -/
def dbOne : Db :=
  { phone_record := [prOne], province_info := [], state_info := [],
    location := [], mk_cat_info := [], md_cat_info := [],
    muas_cat_info := [], nrt_cat_info := [], field_cat_info := [],
    medical_cat_info := [], service_cat_info := [] }

/-- Two records pointing at two different location rows. -/
def dbLoc : Db :=
  { phone_record :=
      [{ prOne with record_id := 1, location_id := 3 },
       { prOne with record_id := 2, location_id := 4 }],
    province_info := [], state_info := [],
    location := [(3, "Abuja Hub"), (4, "Lagos Hub")],
    mk_cat_info := [], md_cat_info := [], muas_cat_info := [],
    nrt_cat_info := [], field_cat_info := [], medical_cat_info := [],
    service_cat_info := [] }

/-! Helper lemmas. -/

theorem filter_digits_all (l : List Char) :
    ((l.filter Char.isDigit).all Char.isDigit) = true := by
  rw [List.all_eq_true]
  intro x hx
  exact (List.mem_filter.1 hx).2

theorem drop_filter_digits_all (l : List Char) (n : Nat) :
    (((l.filter Char.isDigit).drop n).all Char.isDigit) = true := by
  rw [List.all_eq_true]
  intro x hx
  exact (List.mem_filter.1 (List.mem_of_mem_drop hx)).2

theorem whatsappChars_spec (l : List Char) (h : l ≠ []) :
    ((whatsappChars l).all Char.isDigit) = true ∧
    (whatsappChars l).take 3 = ['2', '3', '4'] := by
  unfold whatsappChars
  rw [if_neg h]
  split_ifs with h0 h2
  · exact ⟨by rw [List.all_append, drop_filter_digits_all]; decide, rfl⟩
  · exact ⟨by rw [List.all_append, filter_digits_all]; decide, rfl⟩
  · exact ⟨filter_digits_all l, not_not.1 h2⟩

/-- C4 (confirmed): phone normalization strips non-digits, replaces a
leading `0` by `234`, otherwise prepends `234` unless already present;
the empty phone maps to the empty string; every non-empty phone maps to a
digit-only string starting with `234`; the three spec examples hold; the
function is total. -/
theorem spec_whatsapp_normalization :
    formatWhatsAppNumber "" = "" ∧
    formatWhatsAppNumber "08031234567" = "2348031234567" ∧
    formatWhatsAppNumber "2348031234567" = "2348031234567" ∧
    formatWhatsAppNumber "8031234567" = "2348031234567" ∧
    ∀ p : String, p ≠ "" →
      ((formatWhatsAppNumber p).toList.all Char.isDigit) = true ∧
      (formatWhatsAppNumber p).toList.take 3 = ['2', '3', '4'] := by
  refine ⟨rfl, by decide, by decide, by decide, ?_⟩
  intro p hp
  obtain ⟨d⟩ := p
  have hd : d ≠ [] := fun hnil => hp (by rw [hnil])
  exact whatsappChars_spec d hd

/-- Witness for the universally quantified part of C4 at the concrete
phone `"+234 803"`. -/
theorem spec_whatsapp_normalization_witness :
    ("+234 803" : String) ≠ "" ∧
    (((formatWhatsAppNumber "+234 803").toList.all Char.isDigit) = true ∧
      (formatWhatsAppNumber "+234 803").toList.take 3 = ['2', '3', '4']) :=
  ⟨by decide, spec_whatsapp_normalization.2.2.2.2 "+234 803" (by decide)⟩

/-- C10 (confirmed): on the same store and query parameters, the
`/api/contacts` and `/api/contacts-alt` handlers return the same
response. -/
theorem spec_contacts_alt_equivalence :
    ∀ (db : Db) (params : ContactQueryParams),
      contactsHandler db params = contactsAltHandler db params := by
  intro db params
  unfold contactsHandler contactsAltHandler
  cases effLimit params.limit <;> cases effOffset params.offset <;> rfl

/-- C1 (counterexample): with a store holding one matching record and
`offset=1`, the page is empty and the handler short-circuits with
`pagination.total = 0`, while the count of rows matching the same filter
predicate without pagination is 1 — so `total` is not the unpaginated
count on an empty page. -/
theorem spec_pagination_total_counterexample :
    contactsHandler dbOne { offset := some "1" } =
      ContactsResponse.ok []
        { total := 0, limit := 50, offset := 1, hasMore := false } ∧
    ((matchingRows dbOne { offset := some "1" }).length : Int) = 1 ∧
    (0 : Int) ≠ 1 := by
  exact ⟨by decide, by decide, by decide⟩

/-- C5 (code bug): the fixed handlers default limit to 50, clamp it into
[1,1000], clamp offset to ≥ 0 and reject NaN with a 400, while the legacy
handler of src/unnamed/part_000 forwards the bare `parseInt` values into
the SQL LIMIT/OFFSET unclamped: `limit=-5` goes through as -5, `offset=-7`
as -7, and a non-numeric limit as NaN instead of a 4xx. -/
theorem spec_pagination_clamping_bug :
    effLimit none = some 50 ∧ effOffset none = some 0 ∧
    effLimit (some "0") = some 1 ∧ effLimit (some "-5") = some 1 ∧
    effLimit (some "2000") = some 1000 ∧ effOffset (some "-3") = some 0 ∧
    effLimit (some "abc") = none ∧
    contactsHandler dbOne { limit := some "abc" } =
      ContactsResponse.badRequest ∧
    legacySqlLimit (some "-5") = some (-5) ∧
    legacySqlLimit (some "abc") = none ∧
    legacySqlOffset (some "-7") = some (-7) := by
  decide

/-- C6 (code bug): in the fixed handler the location parameter resolves by
substring against the `location` table to the first matching row's id and
rows are then filtered by exact id equality ("hub" matches both location
rows but only the first, id 3, is used); an unmatched location yields the
impossible filter and an empty success page, never "no filter". The
legacy handler of src/unnamed/part_000 never reads the location parameter:
its filter is that of a location-free request, returning every record. -/
theorem spec_location_filter_bug :
    (matchingRows dbLoc { location := some "hub" }).map
        (fun r => r.record_id) = [1] ∧
    (matchingRows dbLoc { location := some "Lagos" }).map
        (fun r => r.record_id) = [2] ∧
    contactsHandler dbLoc { location := some "Zanzibar" } =
      ContactsResponse.ok []
        { total := 0, limit := 50, offset := 0, hasMore := false } ∧
    (matchingRows dbLoc { location := some "Zanzibar" }).map
        (fun r => r.record_id) = [] ∧
    (legacyMatchingRows dbLoc { location := some "Zanzibar" }).map
        (fun r => r.record_id) = [1, 2] ∧
    ∀ (db : Db) (params : ContactQueryParams) (loc : Option String),
      legacyMatchingRows db { params with location := loc } =
        legacyMatchingRows db params := by
  refine ⟨by decide, by decide, by decide, by decide, by decide, ?_⟩
  intro db params loc
  rfl

/-! Concrete category stores for the resolver claims. -/

/-- Category store in which location id 5 has no row while mk id 3 has
label "MK3". -/
def catDbNoLoc : CatDb :=
  { location := fun _ => LookupResult.notFound
    mk_cat_info := fun i =>
      if i = 3 then LookupResult.found "MK3" else LookupResult.notFound
    md_cat_info := fun _ => LookupResult.notFound
    muas_cat_info := fun _ => LookupResult.notFound
    nrt_cat_info := fun _ => LookupResult.notFound
    field_cat_info := fun _ => LookupResult.notFound
    medical_cat_info := fun _ => LookupResult.notFound
    service_cat_info := fun _ => LookupResult.notFound }

/-- Category store in which mk id 5 has no row while md id 7 has label
"MD7". -/
def catDbMd : CatDb :=
  { location := fun _ => LookupResult.notFound
    mk_cat_info := fun _ => LookupResult.notFound
    md_cat_info := fun i =>
      if i = 7 then LookupResult.found "MD7" else LookupResult.notFound
    muas_cat_info := fun _ => LookupResult.notFound
    nrt_cat_info := fun _ => LookupResult.notFound
    field_cat_info := fun _ => LookupResult.notFound
    medical_cat_info := fun _ => LookupResult.notFound
    service_cat_info := fun _ => LookupResult.notFound }

/-- Category store in which the location lookup for id 1 throws while mk
id 2 has label "MK2". -/
def catDbErr : CatDb :=
  { location := fun i =>
      if i = 1 then LookupResult.err else LookupResult.notFound
    mk_cat_info := fun i =>
      if i = 2 then LookupResult.found "MK2" else LookupResult.notFound
    md_cat_info := fun _ => LookupResult.notFound
    muas_cat_info := fun _ => LookupResult.notFound
    nrt_cat_info := fun _ => LookupResult.notFound
    field_cat_info := fun _ => LookupResult.notFound
    medical_cat_info := fun _ => LookupResult.notFound
    service_cat_info := fun _ => LookupResult.notFound }

/-- A key contributes no label when it is non-positive or its table has no
row for it. -/
def keyNoMatch (t : Int → LookupResult) (i : Int) : Prop :=
  i ≤ 0 ∨ t i = LookupResult.notFound

theorem catStep_noMatch (t : Int → LookupResult) (i : Int)
    (next : Except Unit String) (h : keyNoMatch t i) :
    catStep t i next = next := by
  unfold catStep
  rcases h with h | h
  · rw [if_neg (by omega)]
  · split_ifs with hp
    · rw [h]
    · rfl

/-- C2 (counterexample): with location_id = 5 positive but rowless and
mk = 3 matched, the resolver returns the mk label "MK3", not the sentinel
"Unknown" that the claim requires for a rowless first positive key. -/
theorem spec_unknown_sentinel_counterexample :
    getLocationName catDbNoLoc 5 3 0 0 0 0 0 0 = "MK3" ∧
    catDbNoLoc.location 5 = LookupResult.notFound ∧ (5 : Int) > 0 ∧
    "MK3" ≠ "Unknown" := by
  decide

/-- C2 (amended): the resolver returns "Unknown" when no key is both
strictly positive and matched by a row of its table — in particular when
all eight foreign keys are non-positive; a rowless positive key merely
falls through to the later keys. -/
theorem spec_unknown_sentinel_amended (db : CatDb)
    (locationId mkCatId mdCatId muasCatId nrtCatId fieldCatId medicalCatId
      serviceCatId : Int)
    (h1 : keyNoMatch db.location locationId)
    (h2 : keyNoMatch db.mk_cat_info mkCatId)
    (h3 : keyNoMatch db.md_cat_info mdCatId)
    (h4 : keyNoMatch db.muas_cat_info muasCatId)
    (h5 : keyNoMatch db.nrt_cat_info nrtCatId)
    (h6 : keyNoMatch db.field_cat_info fieldCatId)
    (h7 : keyNoMatch db.medical_cat_info medicalCatId)
    (h8 : keyNoMatch db.service_cat_info serviceCatId) :
    getLocationName db locationId mkCatId mdCatId muasCatId nrtCatId
      fieldCatId medicalCatId serviceCatId = "Unknown" := by
  unfold getLocationName getLocationNameE
  rw [catStep_noMatch _ _ _ h1, catStep_noMatch _ _ _ h2,
    catStep_noMatch _ _ _ h3, catStep_noMatch _ _ _ h4,
    catStep_noMatch _ _ _ h5, catStep_noMatch _ _ _ h6,
    catStep_noMatch _ _ _ h7, catStep_noMatch _ _ _ h8]

/-- Witness for C2 amended: the all-zero record resolves to "Unknown". -/
theorem spec_unknown_sentinel_amended_witness :
    getLocationName catDbNoLoc 0 0 0 0 0 0 0 0 = "Unknown" :=
  spec_unknown_sentinel_amended catDbNoLoc 0 0 0 0 0 0 0 0
    (Or.inl (by decide)) (Or.inl (by decide)) (Or.inl (by decide))
    (Or.inl (by decide)) (Or.inl (by decide)) (Or.inl (by decide))
    (Or.inl (by decide)) (Or.inl (by decide))

/-- C3 (counterexample): with location_id=0, mk=5, md=7 and a store whose
mk table has no row for 5, the resolver returns the md table's label for
7 — contradicting "never the md table's, regardless of table
contents". -/
theorem spec_priority_order_counterexample :
    getLocationName catDbMd 0 5 7 0 0 0 0 0 = "MD7" ∧
    catDbMd.md_cat_info 7 = LookupResult.found "MD7" := by
  decide

/-- C3 (amended): resolution respects the fixed priority order and stops
at the first strictly positive key that has a matching row: with
location_id=0, mk=5, md=7, whenever the mk table has a row for 5 the
result is that mk label irrespective of the md table; and a positive
matched location key beats a matched mk key. -/
theorem spec_priority_order_amended :
    (∀ (db : CatDb) (lbl : String),
      db.mk_cat_info 5 = LookupResult.found lbl →
      getLocationName db 0 5 7 0 0 0 0 0 = lbl) ∧
    (∀ (db : CatDb) (lbl : String),
      db.location 9 = LookupResult.found lbl →
      getLocationName db 9 5 7 0 0 0 0 0 = lbl) := by
  constructor
  · intro db lbl h
    unfold getLocationName getLocationNameE
    rw [catStep_noMatch _ _ _ (Or.inl (by omega))]
    unfold catStep
    rw [if_pos (by omega), h]
  · intro db lbl h
    unfold getLocationName getLocationNameE
    unfold catStep
    rw [if_pos (by omega), h]

/-- Category store whose mk table maps id 5 to the label "MK5". -/
def catDbMk5 : CatDb :=
  { catDbNoLoc with
    mk_cat_info := fun i =>
      if i = 5 then LookupResult.found "MK5" else LookupResult.notFound }

/-- Witness for C3 amended: with mk = 5 matched to "MK5", the instance
location_id=0, mk=5, md=7 resolves to "MK5". -/
theorem spec_priority_order_amended_witness :
    getLocationName catDbMk5 0 5 7 0 0 0 0 0 = "MK5" :=
  spec_priority_order_amended.1 catDbMk5 "MK5" (by decide)

/-- C8 (counterexample): when the location lookup for the first positive
key throws, the resolver returns "Unknown" immediately even though the
next key (mk = 2) has the matching label "MK2" — the error does not fall
through to the next candidate as the claim states. -/
theorem spec_error_fallthrough_counterexample :
    getLocationName catDbErr 1 2 0 0 0 0 0 0 = "Unknown" ∧
    catDbErr.mk_cat_info 2 = LookupResult.found "MK2" ∧
    "Unknown" ≠ "MK2" := by
  decide

/-- C8 (amended): a lookup error during resolution aborts the whole
priority chain — the catch around the chain returns "Unknown" at once,
regardless of the remaining keys and tables — and no error is ever
propagated: whenever the chain evaluates to an error the caller still
receives the label "Unknown". -/
theorem spec_error_absorbed_amended :
    (∀ (db : CatDb) (locationId mkCatId mdCatId muasCatId nrtCatId
        fieldCatId medicalCatId serviceCatId : Int),
      getLocationNameE db locationId mkCatId mdCatId muasCatId nrtCatId
          fieldCatId medicalCatId serviceCatId = Except.error () →
      getLocationName db locationId mkCatId mdCatId muasCatId nrtCatId
          fieldCatId medicalCatId serviceCatId = "Unknown") ∧
    (∀ (db : CatDb) (locationId mkCatId mdCatId muasCatId nrtCatId
        fieldCatId medicalCatId serviceCatId : Int),
      locationId > 0 → db.location locationId = LookupResult.err →
      getLocationName db locationId mkCatId mdCatId muasCatId nrtCatId
          fieldCatId medicalCatId serviceCatId = "Unknown") := by
  constructor
  · intro db l a2 a3 a4 a5 a6 a7 a8 h
    unfold getLocationName
    rw [h]
  · intro db l a2 a3 a4 a5 a6 a7 a8 hpos herr
    unfold getLocationName getLocationNameE catStep
    rw [if_pos hpos, herr]

/-- Witness for C8 amended at the concrete store `catDbErr`: the erroring
location key 1 makes the resolver return "Unknown". -/
theorem spec_error_absorbed_amended_witness :
    getLocationName catDbErr 1 2 0 0 0 0 0 0 = "Unknown" :=
  spec_error_absorbed_amended.2 catDbErr 1 2 0 0 0 0 0 0 (by decide)
    (by decide)

/-- One row matching record id 0, as produced by the store when the
string-to-number coercion of the raw path parameter "abc" compares equal
to a stored `record_id = 0`. -/
def rowZero : JoinedRow :=
  joinRow dbOne { prOne with record_id := 0 }

/-- Store oracle for the legacy by-id query `WHERE pr.record_id = ?` bound
to the raw string: MySQL coerces the non-numeric string "abc" to the
number 0 in the comparison, so a store holding a record with
`record_id = 0` returns that row. -/
def legacyExecAbc : String → List JoinedRow :=
  fun s => if s = "abc" then [rowZero] else []

/-- C7 (code bug): the fixed by-id handler parses the id and returns 400
on any non-numeric id for every store, 404 for an absent numeric id, and
the assembled contact for a present one; the legacy handler of
src/unnamed/part_000 performs no validation and forwards the raw string to
the store — never producing a 400, and returning a 200 contact for id
"abc" when the store's coercion matches a `record_id = 0` row. -/
theorem spec_get_by_id_validation_bug :
    (∀ db : Db, contactByIdHandler db "abc" = ByIdResponse.badRequest) ∧
    contactByIdHandler dbOne "999" = ByIdResponse.notFound ∧
    contactByIdHandler dbOne "1" =
      ByIdResponse.ok (assembleContact (catDbOf dbOne) (joinRow dbOne prOne)) ∧
    (∀ (catDb : CatDb) (exec : String → List JoinedRow) (idParam : String),
      legacyContactByIdHandler catDb exec idParam = ByIdResponse.notFound ∨
      ∃ c, legacyContactByIdHandler catDb exec idParam = ByIdResponse.ok c) ∧
    legacyContactByIdHandler (catDbOf dbOne) legacyExecAbc "abc" =
      ByIdResponse.ok (assembleContact (catDbOf dbOne) rowZero) := by
  refine ⟨fun db => rfl, by decide, by decide, ?_, by decide⟩
  intro catDb exec idParam
  unfold legacyContactByIdHandler
  cases exec idParam with
  | nil => exact Or.inl rfl
  | cons row rest => exact Or.inr ⟨assembleContact catDb row, rfl⟩

/-- C9 (code bug): in the fixed locations handler each table read has its
own try/catch, so one failing table is skipped and the request still
succeeds with the remaining tables' labels; the legacy handler of
src/unnamed/part_000 has no per-table catch, so a single failing table
aborts the whole request with a 500 and no labels at all. -/
theorem spec_locations_partial_failure_bug :
    (∀ (pre suf : List (Except Unit (List String))),
      locationsHandler (pre ++ Except.error () :: suf) =
        locationsHandler (pre ++ suf)) ∧
    locationsHandler
        [Except.ok ["Beta"], Except.error (), Except.ok ["Alpha", "Beta"]] =
      ["Alpha", "Beta"] ∧
    legacyLocationsHandler
        [Except.ok ["Beta"], Except.error (), Except.ok ["Alpha", "Beta"]] =
      Except.error () := by
  refine ⟨?_, by rfl, by rfl⟩
  intro pre suf
  unfold locationsHandler
  rw [List.foldl_append, List.foldl_append, List.foldl_cons]

/-! Supporting lemmas for the pagination contract. -/

theorem effLimit_one_le (p : Option String) (l : Int)
    (h : effLimit p = some l) : 1 ≤ l := by
  cases p with
  | none =>
    simp only [effLimit, Option.some.injEq] at h
    omega
  | some s =>
    simp only [effLimit] at h
    split_ifs at h with hs
    · simp only [Option.some.injEq] at h
      omega
    · cases hp : parseIntJs s with
      | none => rw [hp] at h; simp at h
      | some n =>
        rw [hp] at h
        simp only [Option.map_some', Option.some.injEq] at h
        rw [← h]
        exact le_max_left 1 (min 1000 n)

theorem effOffset_nonneg (p : Option String) (o : Int)
    (h : effOffset p = some o) : 0 ≤ o := by
  cases p with
  | none =>
    simp only [effOffset, Option.some.injEq] at h
    omega
  | some s =>
    simp only [effOffset] at h
    split_ifs at h with hs
    · simp only [Option.some.injEq] at h
      omega
    · cases hp : parseIntJs s with
      | none => rw [hp] at h; simp at h
      | some n =>
        rw [hp] at h
        simp only [Option.map_some', Option.some.injEq] at h
        rw [← h]
        exact le_max_left 0 n

theorem contactsHandler_eq_body (db : Db) (params : ContactQueryParams)
    (limit offset : Int) (hL : effLimit params.limit = some limit)
    (hO : effOffset params.offset = some offset) :
    contactsHandler db params = contactsBody db params limit offset := by
  unfold contactsHandler
  rw [hL, hO]

theorem contactsBody_empty (db : Db) (params : ContactQueryParams)
    (limit offset : Int) (h : pageRows db params limit offset = []) :
    contactsBody db params limit offset =
      ContactsResponse.ok []
        { total := 0, limit := limit, offset := offset, hasMore := false } := by
  unfold contactsBody
  rw [h]
  rfl

theorem contactsBody_nonempty (db : Db) (params : ContactQueryParams)
    (limit offset : Int)
    (h : (pageRows db params limit offset).isEmpty = false) :
    contactsBody db params limit offset =
      ContactsResponse.ok
        ((pageRows db params limit offset).map (assembleContact (catDbOf db)))
        { total := ((matchingRows db params).length : Int), limit := limit,
          offset := offset,
          hasMore := decide (offset +
            ((((pageRows db params limit offset).map
              (assembleContact (catDbOf db))).length : Int)) <
            ((matchingRows db params).length : Int)) } := by
  unfold contactsBody
  rw [h]
  rfl

/-- C1 (amended): for every 200 response of the list-contacts handler, the
page size is at most the effective limit and
`hasMore` holds exactly when `offset + returned_count` is below the count
of rows matching the same filter predicate without pagination; on a
non-empty page `pagination.total` is that unpaginated count, but on an
empty page the handler short-circuits and reports `total = 0` (with
`hasMore = false`) instead of the unpaginated count. -/
theorem spec_pagination_total_amended (db : Db) (params : ContactQueryParams)
    (data : List Contact) (pg : Pagination)
    (h : contactsHandler db params = ContactsResponse.ok data pg) :
    data.length ≤ pg.limit.toNat ∧
    (pg.hasMore = true ↔
      pg.offset + (data.length : Int) <
        ((matchingRows db params).length : Int)) ∧
    (data ≠ [] → pg.total = ((matchingRows db params).length : Int)) ∧
    (data = [] → pg.total = 0 ∧ pg.hasMore = false) := by
  cases hL : effLimit params.limit with
  | none =>
    unfold contactsHandler at h
    rw [hL] at h
    exact ContactsResponse.noConfusion h
  | some limit =>
    cases hO : effOffset params.offset with
    | none =>
      unfold contactsHandler at h
      rw [hL, hO] at h
      exact ContactsResponse.noConfusion h
    | some offset =>
      rw [contactsHandler_eq_body db params limit offset hL hO] at h
      have hlim : 1 ≤ limit := effLimit_one_le _ _ hL
      have hoff : 0 ≤ offset := effOffset_nonneg _ _ hO
      by_cases hpe : pageRows db params limit offset = []
      · rw [contactsBody_empty db params limit offset hpe] at h
        rw [ContactsResponse.ok.injEq] at h
        obtain ⟨hdata, hpg⟩ := h
        subst hdata
        subst hpg
        have hcount : (matchingRows db params).length ≤ offset.toNat := by
          have ht := hpe
          unfold pageRows at ht
          rcases List.take_eq_nil_iff.1 ht with h0 | hdrop
          · exfalso
            omega
          · exact List.drop_eq_nil_iff.1 hdrop
        refine ⟨Nat.zero_le _, ?_, fun hx => absurd rfl hx,
          fun _ => ⟨rfl, rfl⟩⟩
        constructor
        · intro hx
          exact absurd hx Bool.false_ne_true
        · intro hx
          simp only [List.length_nil, Nat.cast_zero, add_zero] at hx
          exfalso
          omega
      · have hpeB : (pageRows db params limit offset).isEmpty = false := by
          cases hll : pageRows db params limit offset with
          | nil => exact absurd hll hpe
          | cons a t => rfl
        rw [contactsBody_nonempty db params limit offset hpeB] at h
        rw [ContactsResponse.ok.injEq] at h
        obtain ⟨hdata, hpg⟩ := h
        subst hdata
        subst hpg
        refine ⟨?_, ?_, fun _ => rfl,
          fun hx => absurd (List.map_eq_nil_iff.1 hx) hpe⟩
        · rw [List.length_map]
          unfold pageRows
          exact List.length_take_le _ _
        · exact decide_eq_true_iff

/-- The contact assembled from `prOne` in the store `dbOne`. -/
def contactOne : Contact :=
  assembleContact (catDbOf dbOne) (joinRow dbOne prOne)

/-- The pagination object of the default request against `dbOne`. -/
def pgOne : Pagination :=
  { total := 1, limit := 50, offset := 0, hasMore := false }

/-- Witness for C1 amended: the default request against `dbOne` returns
the one-contact page, for which the amended pagination contract holds. -/
theorem spec_pagination_total_amended_witness :
    [contactOne].length ≤ pgOne.limit.toNat ∧
    (pgOne.hasMore = true ↔
      pgOne.offset + (([contactOne] : List Contact).length : Int) <
        ((matchingRows dbOne {}).length : Int)) ∧
    ([contactOne] ≠ [] →
      pgOne.total = ((matchingRows dbOne {}).length : Int)) ∧
    ([contactOne] = [] → pgOne.total = 0 ∧ pgOne.hasMore = false) :=
  spec_pagination_total_amended dbOne {} [contactOne] pgOne (by decide)
